import Mathlib

/-!
Verification of the `rockhound.mcmurray_facies` module.

The module consists of one function, `fetch_mcmurray_facies(abbreviations_only,
load)`, which asks a registry collaborator for the dataset archive, optionally
parses the extracted CSV into a dataframe, and runs a column-rename statement
before returning.  We give a shallow embedding of the function over an
environment of collaborator behaviours (the registry fetch and the CSV parser)
and prove or refute the specified properties.

Modelling choices, all taken from the source and the exact behaviour of the
collaborators it invokes:
* the fetch collaborator (`REGISTRY.fetch(..., processor=Unzip())`) yields a
  list of extracted file paths, or fails with an arbitrary error;
* the CSV parser (`pd.read_csv(path, engine=...)`) yields a dataframe or fails
  with an arbitrary error, `NotImplementedError` among them;
* the rename statement passes a plain list as the `columns` mapper:
  `data.rename(columns=abbreviated_columns)`.  pandas wraps only
  `Mapping`/`Series` mappers into a lookup function
  (`pandas.core.common.get_rename_function` returns anything else unwrapped,
  assumed callable) and computes the new labels by calling the mapper on each
  existing column label, so with a list mapper the call raises
  `TypeError` (list object is not callable) as soon as the column index
  is non-empty, whichever list is passed; on an empty column index no call is
  made and a renamed copy is returned.  The source never binds the result of
  the call, so when the call does return, the incoming frame is what the
  function goes on to use;
* on the doubly-degraded path the source assigns a plain string to `data`,
  prints it, and then executes `data.rename(columns=...)`; a Python string has
  no `rename` attribute, so that statement raises `AttributeError` (before any
  argument is involved, hence identically for either flag value);
* `fname[0]` on an empty list raises `IndexError`; `str` applied to a path
  string is the identity.

The embedding additionally records a trace: the list of `read_csv` invocations
(path and `engine` keyword, in call order) and the lines printed.
-/

namespace Rockhound

/-- A pandas dataframe, reduced to what the module observes: the ordered list
of column names and the cell rows. -/
structure DataFrame where
  columns : List String
  rows : List (List String)
deriving DecidableEq

/-- Python exceptions that can escape the function. -/
inductive PyError where
  | notImplementedError
  | parserError (msg : String)
  | fetchError (msg : String)
  | indexError
  | attributeError (msg : String)
  | typeError (msg : String)
deriving DecidableEq

/-- The value a call of `fetch_mcmurray_facies` can return: the raw fetch
result (a list of extracted paths), a dataframe, or — per the degraded
mode — a plain error string in place of the table. -/
inductive FetchResult where
  | paths (ps : List String)
  | table (df : DataFrame)
  | errString (s : String)
deriving DecidableEq

/-- Observable side effects of one call: the `read_csv` invocations (path and
optional `engine` keyword, in order) and the printed diagnostic lines. -/
structure Trace where
  reads : List (String × Option String)
  printed : List String
deriving DecidableEq

/-- The collaborator behaviours a call runs against. -/
structure Env where
  fetch : Except PyError (List String)
  read_csv : String → Option String → Except PyError DataFrame

/-- The `spelled_out_columns` list literal of the source. -/
def spelled_out_columns : List String :=
  ["Unnamed: 0", "CALI=Caliper", "COND=Fluid Conductivity",
   "DELT=Travel Time Interval between Successive Shots",
   "DEPT=Depth", "DPHI=Density Porosity",
   "DT=Delta-T also called Slowness or Interval Transit Time",
   "GR=Gamma Ray", "ILD=Induction Deep Resistivity", "ILM=Induction Medium Resistivity",
   "NPHI=Thermal Neutron Porosity (original Ratio Method) in Selected Lithology",
   "PHID=Porosity-LDT NGT Tools", "RHOB=Bulk Density",
   "SFL=Spherically Focused Log Resitivity",
   "SFLU=SFL Resistivity Unaveraged", "SN=Short Normal Resistivity (16 inch spacing)",
   "SP=Spontaneous Potential", "UWI=Unique Well Identifier",
   "SitID=Site Identification Number",
   "lat=latitude", "lng=longitude", "Depth=Depth", "LithID=Lithology Identity Number",
   "W_Tar=Weight Percent Tar", "SW=Water Saturation", "VSH=Volume of Shale",
   "PHI=Porosity",
   "RW=Connate Water Resistivity", "lithName=Lithology Name"]

/-- The `abbreviated_columns` list literal of the source. -/
def abbreviated_columns : List String :=
  ["Unnamed: 0", "CALI", "COND", "DELT", "DEPT", "DPHI", "DT", "GR",
   "ILD", "ILM", "NPHI", "PHID", "RHOB", "SFL", "SFLU", "SN", "SP", "UWI", "SitID", "lat",
   "lng", "Depth", "LithID", "W_Tar", "SW", "VSH", "PHI", "RW", "lithName"]

/-- The hard-coded relative path the first parse attempt reads. -/
def csv_relative_path : String := "mcmurray_facies_v1/mcmurray_facies_v1.csv"

/-- The exact sentinel string the source assigns and prints on the doubly
degraded path (the Python line continuation keeps the 18 spaces of the second
line of indentation inside the string). -/
def sentinel_message : String :=
  "could not read hdf as the conversion of fname to a stringified version" ++
    "                  " ++ "didn\x27t work well. Oops."

/-- The error message of the `AttributeError` raised when the rename statement
runs on the sentinel string instead of a dataframe. -/
def str_rename_error : String := "\x27str\x27 object has no attribute \x27rename\x27"

/-- The message of the `TypeError` pandas raises when a list is used as the
rename mapper. -/
def list_not_callable : String := "\x27list\x27 object is not callable"

/-- pandas `DataFrame.rename(columns=cols)` with the list argument the source
passes: `get_rename_function` leaves a non-Mapping mapper unwrapped and the
new labels are computed by calling it on each existing column label, so the
call raises `TypeError` on the first label whenever the column index is
non-empty, for any list; with an empty column index no call is made and a
relabelled copy is returned. -/
def rename_columns_with_list (df : DataFrame) (_cols : List String) :
    Except PyError DataFrame :=
  match df.columns with
  | [] => Except.ok (DataFrame.mk [] df.rows)
  | _ :: _ => Except.error (PyError.typeError list_not_callable)

/-- The rename statement of the source:
`data.rename(columns=abbreviated_columns)` or
`data.rename(columns=spelled_out_columns)` depending on the flag.  If the call
raises, the exception propagates; if it returns, its result is bound to
nothing (no assignment, no `inplace=True`), so the incoming frame is what the
function returns. -/
def rename_step (abbreviations_only : Bool) (data : DataFrame) :
    Except PyError FetchResult :=
  match rename_columns_with_list data
      (if abbreviations_only then abbreviated_columns else spelled_out_columns) with
  | Except.ok _renamed => Except.ok (FetchResult.table data)
  | Except.error e => Except.error e

/-- The `load=true` tail of the function: the `try/except NotImplementedError`
nest around the two `pd.read_csv` attempts, followed by the rename statement.
`fname` is the fetch result.  The first attempt reads the hard-coded relative
path with `engine="python"`; on `NotImplementedError` the fallback reads
`str(fname[0])` with the default engine; if that also raises
`NotImplementedError`, the sentinel string is assigned and printed, after
which the rename statement raises `AttributeError` on the string. -/
def fetch_mcmurray_facies_loaded (env : Env) (abbreviations_only : Bool)
    (fname : List String) : Except PyError FetchResult × Trace :=
  match env.read_csv csv_relative_path (some "python") with
  | Except.ok data =>
      (rename_step abbreviations_only data,
       Trace.mk [(csv_relative_path, some "python")] [])
  | Except.error PyError.notImplementedError =>
      match fname with
      | [] =>
          (Except.error PyError.indexError,
           Trace.mk [(csv_relative_path, some "python")] [])
      | p :: _ =>
          match env.read_csv p none with
          | Except.ok data =>
              (rename_step abbreviations_only data,
               Trace.mk [(csv_relative_path, some "python"), (p, none)] [])
          | Except.error PyError.notImplementedError =>
              (Except.error (PyError.attributeError str_rename_error),
               Trace.mk [(csv_relative_path, some "python"), (p, none)]
                 [sentinel_message])
          | Except.error e =>
              (Except.error e,
               Trace.mk [(csv_relative_path, some "python"), (p, none)] [])
  | Except.error e =>
      (Except.error e, Trace.mk [(csv_relative_path, some "python")] [])

/-- Shallow embedding of `fetch_mcmurray_facies`, instrumented with the trace
of `read_csv` invocations and printed lines. -/
def fetch_mcmurray_facies_run (env : Env) (abbreviations_only load : Bool) :
    Except PyError FetchResult × Trace :=
  match env.fetch with
  | Except.error e => (Except.error e, Trace.mk [] [])
  | Except.ok fname =>
      if load then fetch_mcmurray_facies_loaded env abbreviations_only fname
      else (Except.ok (FetchResult.paths fname), Trace.mk [] [])

/-- The value `fetch_mcmurray_facies` returns (or the exception it raises). -/
def fetch_mcmurray_facies (env : Env) (abbreviations_only load : Bool) :
    Except PyError FetchResult :=
  (fetch_mcmurray_facies_run env abbreviations_only load).1

/-- The rename behaviour described by the spec (step 6), stated from the
wording of the spec for comparison with the source: build an
old-name-to-new-name mapping by positional correspondence between
`abbreviated_columns` and `spelled_out_columns`, rename exactly the columns
found in the mapping, and leave every other column untouched.  With
`abbreviations_only` true the columns keep their abbreviated names. -/
def spec_step6_rename (abbreviations_only : Bool) (df : DataFrame) : DataFrame :=
  if abbreviations_only then df
  else
    DataFrame.mk
      (df.columns.map (fun c =>
        match (abbreviated_columns.zip spelled_out_columns).find?
            (fun p => p.1 = c) with
        | some p => p.2
        | none => c))
      df.rows

/-- One spelled-out entry is the renamed form of one abbreviated entry: the
abbreviated code, then `=`, then the spelled-out text. -/
def renamed_form (abbr spelled : String) : Bool :=
  spelled.toList == abbr.toList ++ '=' :: spelled.toList.drop (abbr.toList.length + 1)

/-- Modelled from the spec: the header of the extracted data file
`mcmurray_facies_v1/mcmurray_facies_v1.csv` is not part of the repository; the
spec (and the docstring of the function) describe the loaded table as the 28
abbreviated well-log columns plus the row-counter artifact column
`Unnamed: 0`. -/
def mcmurray_csv_header : List String :=
  ["Unnamed: 0", "CALI", "COND", "DELT", "DEPT", "DPHI", "DT", "GR",
   "ILD", "ILM", "NPHI", "PHID", "RHOB", "SFL", "SFLU", "SN", "SP", "UWI", "SitID", "lat",
   "lng", "Depth", "LithID", "W_Tar", "SW", "VSH", "PHI", "RW", "lithName"]

/-- Environment whose parse yields a frame with the abbreviated dataset
header and no rows. -/
def env_renaming_demo : Env :=
  Env.mk (Except.ok ["mcmurray_facies_v1/mcmurray_facies_v1.csv"])
    (fun _ _ => Except.ok (DataFrame.mk abbreviated_columns []))

/-- Environment whose parse yields a frame with one list column, one column
absent from the lists, and one row. -/
def env_mixed_columns : Env :=
  Env.mk (Except.ok ["extracted/data.csv"])
    (fun _ _ => Except.ok (DataFrame.mk ["Unnamed: 0", "CALI", "FOO"] [["0", "8.5", "x"]]))

/-- Environment where every parse attempt raises `NotImplementedError`. -/
def env_double_not_implemented : Env :=
  Env.mk (Except.ok ["some/extracted/path"])
    (fun _ _ => Except.error PyError.notImplementedError)

/-- Environment whose primary parse succeeds directly. -/
def env_primary_ok : Env :=
  Env.mk (Except.ok ["fb.csv"])
    (fun _ _ => Except.ok (DataFrame.mk mcmurray_csv_header []))

/-- Environment whose primary parse raises `NotImplementedError` and whose
fallback parse succeeds. -/
def env_fallback_ok : Env :=
  Env.mk (Except.ok ["fb.csv"])
    (fun p _ => if p = csv_relative_path then Except.error PyError.notImplementedError
                else Except.ok (DataFrame.mk mcmurray_csv_header []))

/-- Environment whose primary parse raises an ordinary parser error. -/
def env_parse_error : Env :=
  Env.mk (Except.ok ["fb.csv"])
    (fun _ _ => Except.error (PyError.parserError "malformed csv"))

/-- Environment whose primary parse raises `NotImplementedError` and whose
fallback raises an ordinary parser error. -/
def env_fallback_error : Env :=
  Env.mk (Except.ok ["fb.csv"])
    (fun p _ => if p = csv_relative_path then Except.error PyError.notImplementedError
                else Except.error (PyError.parserError "malformed csv"))

/-- Environment whose fetch fails. -/
def env_fetch_fail : Env :=
  Env.mk (Except.error (PyError.fetchError "network down"))
    (fun _ _ => Except.error PyError.notImplementedError)

/-- Whether a call returned a value at all (`true`) or raised (`false`). -/
def returns_ok : Except PyError FetchResult → Bool
  | Except.ok _ => true
  | Except.error _ => false

/-- The outcome of the rename statement does not depend on the flag: the list
passed as the mapper never influences the result — the `TypeError` depends
only on the mapper being a list and the column index being non-empty, and a
returning call has its result discarded. -/
theorem rename_step_true_eq_false (df : DataFrame) :
    rename_step true df = rename_step false df := rfl

/-- C1: the claim says that with `load=true` and `abbreviations_only=false`
every renamed column of the returned table equals the spelled-out list entry
at the same position (GR becomes GR=Gamma Ray, UWI becomes
UWI=Unique Well Identifier).  This fails on the code: on a parse yielding a
table whose columns are exactly the abbreviated list, the rename statement
passes the raw list as the mapper and pandas raises
`TypeError: list object is not callable`, so no table — renamed or not — is
ever returned, even though the positional rename the spec describes would
have produced exactly the spelled-out list. -/
theorem claim_C1_rename_raises :
    fetch_mcmurray_facies env_renaming_demo false true =
      Except.error (PyError.typeError list_not_callable) ∧
    returns_ok (fetch_mcmurray_facies env_renaming_demo false true) = false ∧
    (spec_step6_rename false (DataFrame.mk abbreviated_columns [])).columns =
      spelled_out_columns :=
  ⟨rfl, rfl, by decide⟩

/-- C2: the claim says that when both CSV parse attempts raise the "not
implemented" condition the function returns the sentinel string, emits a
diagnostic line, and lets no exception escape.  On the code, the diagnostic
line is indeed printed, but the subsequent rename statement runs on the
sentinel string, which has no `rename` attribute, so an `AttributeError`
escapes and the string is never returned. -/
theorem claim_C2_degraded_path_raises :
    fetch_mcmurray_facies_run env_double_not_implemented true true =
      (Except.error (PyError.attributeError str_rename_error),
       Trace.mk [(csv_relative_path, some "python"), ("some/extracted/path", none)]
         [sentinel_message]) ∧
    returns_ok (fetch_mcmurray_facies env_double_not_implemented true true) = false :=
  ⟨rfl, rfl⟩

/-- C3: the claim says the rename step builds an old-name-to-new-name mapping
by positional correspondence between the two lists, renames exactly the
matching columns and leaves the rest untouched, raising no error for missing
columns.  On the code no such mapping is ever built: the raw column-name list
is passed as the mapper and pandas raises `TypeError` on the first column
label, so on a table with columns `Unnamed: 0`, `CALI`, `FOO` nothing is
renamed and an error is raised, while the mapping the claim describes would
have renamed `CALI` to `CALI=Caliper` (and only it), tolerating the missing
`FOO`. -/
theorem claim_C3_no_positional_mapping_applied :
    fetch_mcmurray_facies env_mixed_columns false true =
      Except.error (PyError.typeError list_not_callable) ∧
    (spec_step6_rename false
        (DataFrame.mk ["Unnamed: 0", "CALI", "FOO"] [["0", "8.5", "x"]])).columns =
      ["Unnamed: 0", "CALI=Caliper", "FOO"] :=
  ⟨rfl, by decide⟩

/-- C4: with `load=false` the function returns the fetch collaborator
result unchanged — the whole returned value is the fetch outcome wrapped as a
path result, errors propagating as-is — and no `read_csv` invocation is ever
made, for either value of `abbreviations_only`. -/
theorem claim_C4_load_false_returns_fetch_unchanged (env : Env) (ab : Bool) :
    (fetch_mcmurray_facies_run env ab false).1 = env.fetch.map FetchResult.paths ∧
    (fetch_mcmurray_facies_run env ab false).2.reads = [] := by
  unfold fetch_mcmurray_facies_run
  cases env.fetch with
  | error e => exact ⟨rfl, rfl⟩
  | ok fname => exact ⟨rfl, rfl⟩

/-- C4 witness: the load-false behaviour applied at a concrete environment. -/
theorem witness_C4 :
    (fetch_mcmurray_facies_run env_primary_ok true false).1 =
      Except.ok (FetchResult.paths ["fb.csv"]) ∧
    (fetch_mcmurray_facies_run env_primary_ok true false).2.reads = [] :=
  claim_C4_load_false_returns_fetch_unchanged env_primary_ok true

/-- C5: the two fixed column-name lists correspond positionally: they have
the same length, the index column `Unnamed: 0` heads both lists identically,
and at every later position the spelled-out entry is the abbreviated entry
followed by `=` and the spelled-out text. -/
theorem claim_C5_column_lists_positional_correspondence :
    abbreviated_columns.length = spelled_out_columns.length ∧
    abbreviated_columns.head? = some "Unnamed: 0" ∧
    spelled_out_columns.head? = some "Unnamed: 0" ∧
    ((abbreviated_columns.zip spelled_out_columns).tail.all
      fun p => renamed_form p.1 p.2) = true :=
  ⟨rfl, rfl, rfl, by decide⟩

/-- C6: with `load=true` the first parse attempt always reads the hard-coded
relative path `mcmurray_facies_v1/mcmurray_facies_v1.csv` (with the permissive
`python` engine); if it succeeds no second read happens; if it fails with
anything other than the "not implemented" condition no fallback read happens
either; only on the "not implemented" failure is a second read made, at the
first element of the fetch result coerced to a string path. -/
theorem claim_C6_parse_order_and_fallback (env : Env) (ab : Bool)
    (fname : List String) (hf : env.fetch = Except.ok fname) :
    (∀ df, env.read_csv csv_relative_path (some "python") = Except.ok df →
        (fetch_mcmurray_facies_run env ab true).2.reads =
          [(csv_relative_path, some "python")]) ∧
    (∀ e, env.read_csv csv_relative_path (some "python") = Except.error e →
        e ≠ PyError.notImplementedError →
        (fetch_mcmurray_facies_run env ab true).2.reads =
          [(csv_relative_path, some "python")]) ∧
    (∀ p rest, env.read_csv csv_relative_path (some "python") =
          Except.error PyError.notImplementedError →
        fname = p :: rest →
        (fetch_mcmurray_facies_run env ab true).2.reads =
          [(csv_relative_path, some "python"), (p, none)]) := by
  refine ⟨?_, ?_, ?_⟩
  · intro df hdf
    simp only [fetch_mcmurray_facies_run, hf, if_true, fetch_mcmurray_facies_loaded, hdf]
  · intro e hdf hne
    simp only [fetch_mcmurray_facies_run, hf, if_true, fetch_mcmurray_facies_loaded, hdf]
  · intro p rest hdf hcons
    subst hcons
    simp only [fetch_mcmurray_facies_run, hf, if_true, fetch_mcmurray_facies_loaded, hdf]
    cases h2 : env.read_csv p none with
    | ok df => rfl
    | error e2 => cases e2 <;> rfl

/-- C6 witness: the three limbs instantiated at concrete environments — a
primary parse that succeeds (a single read, no fallback), a primary parse
failing with an ordinary parser error (a single read, no fallback), and a
primary parse failing with the "not implemented" condition (a second read at
the first fetched path). -/
theorem witness_C6 :
    (fetch_mcmurray_facies_run env_primary_ok true true).2.reads =
      [(csv_relative_path, some "python")] ∧
    (fetch_mcmurray_facies_run env_parse_error true true).2.reads =
      [(csv_relative_path, some "python")] ∧
    (fetch_mcmurray_facies_run env_fallback_ok true true).2.reads =
      [(csv_relative_path, some "python"), ("fb.csv", none)] :=
  ⟨(claim_C6_parse_order_and_fallback env_primary_ok true ["fb.csv"] rfl).1
      (DataFrame.mk mcmurray_csv_header []) rfl,
   (claim_C6_parse_order_and_fallback env_parse_error true ["fb.csv"] rfl).2.1
      (PyError.parserError "malformed csv") rfl (by decide),
   (claim_C6_parse_order_and_fallback env_fallback_ok true ["fb.csv"] rfl).2.2
      "fb.csv" [] rfl rfl⟩

/-- C7: only the "not implemented" parse failure is caught.  A fetch failure
propagates to the caller untouched (for any flag values), and a parse error
other than the "not implemented" condition propagates from the first as well
as from the second parse attempt. -/
theorem claim_C7_only_not_implemented_caught (env : Env) (ab load : Bool) :
    (∀ e, env.fetch = Except.error e →
        fetch_mcmurray_facies env ab load = Except.error e) ∧
    (∀ fname e, env.fetch = Except.ok fname →
        env.read_csv csv_relative_path (some "python") = Except.error e →
        e ≠ PyError.notImplementedError →
        fetch_mcmurray_facies env ab true = Except.error e) ∧
    (∀ p rest e, env.fetch = Except.ok (p :: rest) →
        env.read_csv csv_relative_path (some "python") =
          Except.error PyError.notImplementedError →
        env.read_csv p none = Except.error e →
        e ≠ PyError.notImplementedError →
        fetch_mcmurray_facies env ab true = Except.error e) := by
  refine ⟨?_, ?_, ?_⟩
  · intro e hf
    simp only [fetch_mcmurray_facies, fetch_mcmurray_facies_run, hf]
  · intro fname e hf hdf hne
    simp only [fetch_mcmurray_facies, fetch_mcmurray_facies_run, hf, if_true,
      fetch_mcmurray_facies_loaded, hdf]
  · intro p rest e hf hdf h2 hne
    simp only [fetch_mcmurray_facies, fetch_mcmurray_facies_run, hf, if_true,
      fetch_mcmurray_facies_loaded, hdf, h2]

/-- C7 witness: the three limbs instantiated at concrete environments — a
failing fetch, a first parse attempt failing with an ordinary parser error,
and a fallback parse attempt failing with an ordinary parser error; the error
surfaces unchanged in each case. -/
theorem witness_C7 :
    fetch_mcmurray_facies env_fetch_fail true true =
      Except.error (PyError.fetchError "network down") ∧
    fetch_mcmurray_facies env_parse_error false true =
      Except.error (PyError.parserError "malformed csv") ∧
    fetch_mcmurray_facies env_fallback_error true true =
      Except.error (PyError.parserError "malformed csv") :=
  ⟨(claim_C7_only_not_implemented_caught env_fetch_fail true true).1
      (PyError.fetchError "network down") rfl,
   (claim_C7_only_not_implemented_caught env_parse_error false true).2.1
      ["fb.csv"] (PyError.parserError "malformed csv") rfl rfl (by decide),
   (claim_C7_only_not_implemented_caught env_fallback_error true true).2.2
      "fb.csv" [] (PyError.parserError "malformed csv") rfl rfl rfl (by decide)⟩

/-- C8: each of the two fixed column-name lists consists of the unnamed-index
entry `Unnamed: 0` followed by 28 named entries, matching the loaded table:
a parse yielding that dataset header hands the rename statement a table with
exactly that column structure (28 named data columns plus the row-counter
artifact column). -/
theorem claim_C8_header_28_plus_unnamed :
    mcmurray_csv_header.length = 29 ∧
    mcmurray_csv_header.head? = some "Unnamed: 0" ∧
    mcmurray_csv_header.tail.length = 28 ∧
    (mcmurray_csv_header.tail.all
      fun c => !("Unnamed".toList.isPrefixOf c.toList)) = true ∧
    abbreviated_columns = mcmurray_csv_header ∧
    spelled_out_columns.head? = some "Unnamed: 0" ∧
    spelled_out_columns.tail.length = 28 ∧
    (spelled_out_columns.tail.all
      fun c => !("Unnamed".toList.isPrefixOf c.toList)) = true ∧
    fetch_mcmurray_facies_loaded env_primary_ok true ["fb.csv"] =
      (rename_step true (DataFrame.mk mcmurray_csv_header []),
       Trace.mk [(csv_relative_path, some "python")] []) :=
  ⟨rfl, rfl, rfl, by decide, by decide, rfl, rfl, by decide, rfl⟩

/-- C9: the claim says the rename step never drops or adds a column, so that
the returned table has exactly as many columns as the table entering the
rename step, for either flag value.  This fails on the code: for any table
with a non-empty column index entering the rename step — such as one with the
dataset header — the rename statement raises
`TypeError: list object is not callable` for either flag value, and no table
is returned at all. -/
theorem claim_C9_rename_step_raises :
    rename_step true (DataFrame.mk mcmurray_csv_header []) =
      Except.error (PyError.typeError list_not_callable) ∧
    rename_step false (DataFrame.mk mcmurray_csv_header []) =
      Except.error (PyError.typeError list_not_callable) ∧
    fetch_mcmurray_facies env_primary_ok true true =
      Except.error (PyError.typeError list_not_callable) :=
  ⟨rfl, rfl, rfl⟩

/-- C10: for every fixed fetch and parse outcome with `load=true`, the
outcome of `fetch_mcmurray_facies` — the returned value or the raised
exception, together with the reads and prints — is identical whether
`abbreviations_only` is true or false.  The flag only selects which list is
passed to the rename call: a raising call raises the same `TypeError` for
either list (the raise depends only on the mapper being a list), a returning
call has its result discarded, and on the degraded path the `AttributeError`
precedes any use of the argument; so the flag has no observable effect. -/
theorem claim_C10_flag_no_observable_effect (env : Env) :
    fetch_mcmurray_facies_run env true true = fetch_mcmurray_facies_run env false true ∧
    fetch_mcmurray_facies env true true = fetch_mcmurray_facies env false true := by
  constructor
  · unfold fetch_mcmurray_facies_run fetch_mcmurray_facies_loaded
    simp only [rename_step_true_eq_false]
  · unfold fetch_mcmurray_facies fetch_mcmurray_facies_run fetch_mcmurray_facies_loaded
    simp only [rename_step_true_eq_false]

/-- C10 witness: the flag independence applied at a concrete environment. -/
theorem witness_C10 :
    fetch_mcmurray_facies_run env_renaming_demo true true =
      fetch_mcmurray_facies_run env_renaming_demo false true ∧
    fetch_mcmurray_facies env_renaming_demo true true =
      fetch_mcmurray_facies env_renaming_demo false true :=
  claim_C10_flag_no_observable_effect env_renaming_demo

end Rockhound
